import Mathlib

/-!
Verification of the pipeline orchestration engine of `video_to_splat.py`.

This file gives a shallow embedding of the orchestrator: the parameter
advisor (`get_smart_defaults`), the remote-configuration merge performed
by `main`, the effective-step-count computation, the COLMAP
reconstruction stage (`run_colmap`), the image-resize stage
(`resize_images`), the remote job dispatcher (`run_remote_training`),
and the stage sequencing of `main` itself.

External effects are modelled as explicit inputs: subprocess exit codes,
filesystem contents, the saved configuration file and wall-clock time
are fields of an environment record, and each embedded function returns
the list of external actions it performs (its trace) together with its
result, mirroring the Python control flow line by line.  Python string
truthiness (`None` and the empty string are falsy) is modelled
explicitly for the fields where the source relies on it.
-/

/-- Training configuration record produced by `get_smart_defaults`
(`video_to_splat.py`, lines 245-277). -/
structure SmartDefaults where
  steps : Nat
  refine_every : Nat
  sh_degree : Nat
  export_every : Nat
  deriving Repr, DecidableEq

/-- Embedding of `get_smart_defaults` (lines 245-277): the base record is
`steps=30000, refine_every=min(frame_count,200), sh_degree=3,
export_every=5000`, and `steps` is adjusted by the `if/elif/elif`
chain on the frame count. -/
def get_smart_defaults (frame_count : Nat) : SmartDefaults :=
  let defaults : SmartDefaults :=
    { steps := 30000,
      refine_every := min frame_count 200,
      sh_degree := 3,
      export_every := 5000 }
  if frame_count < 50 then { defaults with steps := 20000 }
  else if frame_count < 100 then { defaults with steps := 25000 }
  else if frame_count > 300 then { defaults with steps := 35000 }
  else defaults

/-- The step-count bracket rules as the specification states them
(spec section 4.3): written from the spec's words, to be compared with
the source-derived `get_smart_defaults`. -/
def specBracketSteps (f : Nat) : Nat :=
  if f < 50 then 20000
  else if f < 100 then 25000
  else if f ≤ 300 then 30000
  else 35000

/-- Python truthiness of an optional string: `None` and `""` are falsy. -/
def truthy : Option String → Bool
  | some s => s ≠ ""
  | none => false

/-- Python `a or b` on optional strings. -/
def pyOr (a b : Option String) : Option String :=
  if truthy a then a else b

/-- Python `a or b` where `a` is a plain string (falsy iff empty). -/
def pyOrStr (a b : String) : String :=
  if a = "" then b else a

/-- Saved remote configuration file contents (`remote_config.json`); each
field may be absent from the JSON object, in which case `dict.get`
returns `None`. -/
structure RemoteConfig where
  host : Option String
  user : Option String
  remote_path : Option String
  deriving Repr, DecidableEq

/-- Embedding of the remote-configuration merge in `main`
(lines 565-578): the saved configuration is loaded only when the CLI
host or user is missing, and each field is combined with Python `or`.
Note that the CLI path argument has the argparse default
`"/c/splat/jobs"`, so `cliPath` is the parsed string (non-empty unless
the user passed an explicitly empty `--remote-path`). -/
def effectiveRemoteProfile (cliHost cliUser : Option String) (cliPath : String)
    (saved : Option RemoteConfig) : Option String × Option String × String :=
  if !(truthy cliHost) || !(truthy cliUser) then
    match saved with
    | some cfg =>
        (pyOr cliHost cfg.host, pyOr cliUser cfg.user,
         pyOrStr cliPath (cfg.remote_path.getD "/c/splat/jobs"))
    | none => (cliHost, cliUser, cliPath)
  else (cliHost, cliUser, cliPath)

/-- Embedding of `total_steps = args.steps or defaults['steps']`
(line 652): Python `or` on an optional integer treats `0` as falsy. -/
def effectiveTotalSteps (cliSteps : Option Int) (frame_count : Nat) : Int :=
  match cliSteps with
  | some s => if s = 0 then ((get_smart_defaults frame_count).steps : Int) else s
  | none => ((get_smart_defaults frame_count).steps : Int)

/-- C1: for every non-negative frame count `f`, `get_smart_defaults f`
returns `refine_every = min f 200`, `sh_degree = 3`,
`export_every = 5000`, and `steps` given exactly by the bracket rules
(`f<50 → 20000`, `50≤f<100 → 25000`, `100≤f≤300 → 30000`,
`f>300 → 35000`), including the listed boundary values. -/
theorem get_smart_defaults_correct (f : Nat) :
    (get_smart_defaults f).refine_every = min f 200 ∧
    (get_smart_defaults f).sh_degree = 3 ∧
    (get_smart_defaults f).export_every = 5000 ∧
    (get_smart_defaults f).steps = specBracketSteps f ∧
    (get_smart_defaults 49).steps = 20000 ∧
    (get_smart_defaults 50).steps = 25000 ∧
    (get_smart_defaults 99).steps = 25000 ∧
    (get_smart_defaults 100).steps = 30000 ∧
    (get_smart_defaults 300).steps = 30000 ∧
    (get_smart_defaults 301).steps = 35000 := by
  refine ⟨?_, ?_, ?_, ?_, by decide, by decide, by decide, by decide, by decide, by decide⟩ <;>
  · simp only [get_smart_defaults, specBracketSteps]
    split_ifs <;> simp_all <;> omega

/-- Outcomes of the external operations performed by
`run_remote_training` (lines 390-454): the exit codes of the remote
`mkdir`, the image `rsync`, the remote training command, and the number
of `.ply` files found locally afterwards. -/
structure RemoteWorld where
  mkdir_ret : Int
  rsync_ret : Int
  train_ret : Int
  ply_count : Nat
  deriving Repr, DecidableEq

/-- External actions performed by `run_remote_training`, in order. -/
inductive RemoteEvent where
  | sshMkdir (host user path : String)
  | rsyncImagesTo (localDir host user dest : String)
  | sshTrain (host user c : String)
  | warnTrainFailed (code : Int)
  | rsyncFetch (host user jobPath pattern : String)
  | reportPlyCount (n : Nat)
  | warnNoPly
  deriving Repr, DecidableEq

/-- The remote training command string built at line 433: it mentions
only the remote job path and the step count. -/
def windows_train_cmd (remote_job_path : String) (total_steps : Int) : String :=
  "cd \"" ++ remote_job_path ++ "\" && python C:/splat/windows_train.py --input \""
    ++ remote_job_path ++ "\" --steps " ++ toString total_steps

/-- Embedding of `run_remote_training` (lines 390-454).  `workspace` is
the (absolute) local workspace directory, `now` is `int(time.time())`.
Returns the trace of external actions and the function's return value.
Step 1 failing returns 1 at once; step 2 failing returns 1; a non-zero
remote training exit only logs a warning; retrieval tries three
patterns unconditionally; the function then reports the local `.ply`
count and returns 0. -/
def run_remote_training (workspace host user remote_base_path : String)
    (total_steps : Int) (now : Nat) (w : RemoteWorld) :
    List RemoteEvent × Nat :=
  let job_id := "job_" ++ toString now
  let remote_job_path := remote_base_path ++ "/" ++ job_id
  let t1 := [RemoteEvent.sshMkdir host user remote_job_path]
  if w.mkdir_ret ≠ 0 then (t1, 1)
  else
    let local_images := workspace ++ "/images"
    let t2 := t1 ++ [RemoteEvent.rsyncImagesTo local_images host user (remote_job_path ++ "/images")]
    if w.rsync_ret ≠ 0 then (t2, 1)
    else
      let c := windows_train_cmd remote_job_path total_steps
      let t3 := t2 ++ [RemoteEvent.sshTrain host user c]
      let t4 := t3 ++ (if w.train_ret ≠ 0 then [RemoteEvent.warnTrainFailed w.train_ret] else [])
      let t5 := t4 ++ (["output/*.ply", "*.ply", "output/**/*.ply"].map
        (fun p => RemoteEvent.rsyncFetch host user remote_job_path p))
      let t6 := t5 ++ (if w.ply_count = 0 then [RemoteEvent.warnNoPly]
        else [RemoteEvent.reportPlyCount w.ply_count])
      (t6, 0)

/-- C5: in `run_remote_training`, a failing remote `mkdir` makes the
dispatcher return 1 with no file-sync and no remote invocation in its
trace, and a failing image `rsync` makes it return 1 with no remote
invocation in its trace. -/
theorem run_remote_training_aborts_early (ws host user bp : String)
    (steps : Int) (now : Nat) (w : RemoteWorld) :
    (w.mkdir_ret ≠ 0 →
      run_remote_training ws host user bp steps now w =
        ([RemoteEvent.sshMkdir host user (bp ++ "/" ++ ("job_" ++ toString now))], 1)) ∧
    (w.mkdir_ret = 0 → w.rsync_ret ≠ 0 →
      run_remote_training ws host user bp steps now w =
        ([RemoteEvent.sshMkdir host user (bp ++ "/" ++ ("job_" ++ toString now)),
          RemoteEvent.rsyncImagesTo (ws ++ "/images") host user
            (bp ++ "/" ++ ("job_" ++ toString now) ++ "/images")], 1)) := by
  constructor
  · intro h
    simp [run_remote_training, h]
  · intro h1 h2
    simp [run_remote_training, h1, h2]

/-- C5 witness: concrete runs exercising both early-abort branches. -/
theorem run_remote_training_aborts_early_witness :
    ((5 : Int) ≠ 0 ∧
      run_remote_training "/w" "h" "u" "/b" 100 7 ⟨5, 0, 0, 0⟩ =
        ([RemoteEvent.sshMkdir "h" "u" "/b/job_7"], 1)) ∧
    ((0 : Int) = 0 ∧ (3 : Int) ≠ 0 ∧
      run_remote_training "/w" "h" "u" "/b" 100 7 ⟨0, 3, 0, 0⟩ =
        ([RemoteEvent.sshMkdir "h" "u" "/b/job_7",
          RemoteEvent.rsyncImagesTo "/w/images" "h" "u" "/b/job_7/images"], 1)) :=
  ⟨⟨by decide,
    (run_remote_training_aborts_early "/w" "h" "u" "/b" 100 7 ⟨5, 0, 0, 0⟩).1 (by decide)⟩,
   ⟨rfl, by decide,
    (run_remote_training_aborts_early "/w" "h" "u" "/b" 100 7 ⟨0, 3, 0, 0⟩).2 rfl (by decide)⟩⟩

/-- C6: in `run_remote_training`, a non-zero remote training exit is
non-fatal: the dispatcher logs a warning, still attempts retrieval for
all three candidate output patterns, reports the retrieved `.ply` count
(a warning when zero), and returns 0. -/
theorem run_remote_training_train_failure_nonfatal (ws host user bp : String)
    (steps : Int) (now : Nat) (w : RemoteWorld)
    (h1 : w.mkdir_ret = 0) (h2 : w.rsync_ret = 0) (h3 : w.train_ret ≠ 0) :
    run_remote_training ws host user bp steps now w =
      ([RemoteEvent.sshMkdir host user (bp ++ "/" ++ ("job_" ++ toString now)),
        RemoteEvent.rsyncImagesTo (ws ++ "/images") host user
          (bp ++ "/" ++ ("job_" ++ toString now) ++ "/images"),
        RemoteEvent.sshTrain host user
          (windows_train_cmd (bp ++ "/" ++ ("job_" ++ toString now)) steps),
        RemoteEvent.warnTrainFailed w.train_ret,
        RemoteEvent.rsyncFetch host user (bp ++ "/" ++ ("job_" ++ toString now)) "output/*.ply",
        RemoteEvent.rsyncFetch host user (bp ++ "/" ++ ("job_" ++ toString now)) "*.ply",
        RemoteEvent.rsyncFetch host user (bp ++ "/" ++ ("job_" ++ toString now)) "output/**/*.ply"]
       ++ (if w.ply_count = 0 then [RemoteEvent.warnNoPly]
           else [RemoteEvent.reportPlyCount w.ply_count]),
      0) := by
  simp [run_remote_training, h1, h2, h3]

/-- C6 witness: a concrete run with a failing remote training command
and zero retrieved artifacts still returns 0. -/
theorem run_remote_training_train_failure_nonfatal_witness :
    run_remote_training "/w" "h" "u" "/b" 100 7 ⟨0, 0, 2, 0⟩ =
      ([RemoteEvent.sshMkdir "h" "u" "/b/job_7",
        RemoteEvent.rsyncImagesTo "/w/images" "h" "u" "/b/job_7/images",
        RemoteEvent.sshTrain "h" "u" (windows_train_cmd "/b/job_7" 100),
        RemoteEvent.warnTrainFailed 2,
        RemoteEvent.rsyncFetch "h" "u" "/b/job_7" "output/*.ply",
        RemoteEvent.rsyncFetch "h" "u" "/b/job_7" "*.ply",
        RemoteEvent.rsyncFetch "h" "u" "/b/job_7" "output/**/*.ply"]
       ++ (if (0 : Nat) = 0 then [RemoteEvent.warnNoPly]
           else [RemoteEvent.reportPlyCount 0]),
      0) := by
  have h := run_remote_training_train_failure_nonfatal "/w" "h" "u" "/b" 100 7
    ⟨0, 0, 2, 0⟩ rfl rfl (by decide)
  simpa using h

/-- Outcomes of the external COLMAP invocations performed by
`run_colmap` (lines 170-242): exit codes of `feature_extractor`, the
matcher, and `mapper`; the subdirectories of `sparse` produced by the
mapper; and the exit code of `model_converter` for each of them. -/
structure ColmapWorld where
  feat_ret : Int
  match_ret : Int
  map_ret : Int
  model_dirs : List String
  convert_ret : String → Int

/-- External actions performed by `run_colmap`, in order.  A
`modelConverter` event records the converter's exit code, which the
source captures but never inspects. -/
inductive ColmapEvent where
  | featureExtractor
  | matcherRun (name : String)
  | mapper
  | modelConverter (dir : String) (ret : Int)
  deriving Repr, DecidableEq

/-- Embedding of `run_colmap` (lines 170-242): feature extraction, then
matching (`sequential_matcher` when the matcher type is `"sequential"`,
else `exhaustive_matcher`), then mapping — each exiting the process
with code 1 on a non-zero subprocess exit — then `model_converter` on
every model subdirectory, whose result is discarded.  Returns the trace
and `some code` when the stage calls `sys.exit(code)`, `none` when it
completes. -/
def run_colmap (matcher_type : String) (w : ColmapWorld) :
    List ColmapEvent × Option Nat :=
  let t1 := [ColmapEvent.featureExtractor]
  if w.feat_ret ≠ 0 then (t1, some 1)
  else
    let mname := if matcher_type = "sequential" then "sequential_matcher"
      else "exhaustive_matcher"
    let t2 := t1 ++ [ColmapEvent.matcherRun mname]
    if w.match_ret ≠ 0 then (t2, some 1)
    else
      let t3 := t2 ++ [ColmapEvent.mapper]
      if w.map_ret ≠ 0 then (t3, some 1)
      else
        (t3 ++ w.model_dirs.map (fun d => ColmapEvent.modelConverter d (w.convert_ret d)),
         none)

/-- C8 counterexample: a run in which every COLMAP step succeeds but the
`model_converter` on the single model directory exits with code 3 still
completes the Reconstruct stage normally (no `sys.exit`), so a failing
conversion does not abort the stage as the claim states. -/
theorem run_colmap_convert_failure_not_fatal :
    (ColmapWorld.mk 0 0 0 ["0"] (fun _ => 3)).convert_ret "0" ≠ 0 ∧
    run_colmap "sequential" (ColmapWorld.mk 0 0 0 ["0"] (fun _ => 3)) =
      ([ColmapEvent.featureExtractor, ColmapEvent.matcherRun "sequential_matcher",
        ColmapEvent.mapper, ColmapEvent.modelConverter "0" 3], none) := by
  constructor
  · decide
  · rfl

/-- C8 (amended): feature extraction, matching and mapping run in order
and a non-zero exit of any of these three aborts the stage with exit
code 1; when all three succeed, `model_converter` is invoked on every
model subdirectory and the stage completes regardless of the
converters' exit codes. -/
theorem run_colmap_step_failures (matcher_type : String) (w : ColmapWorld) :
    (w.feat_ret ≠ 0 →
      run_colmap matcher_type w = ([ColmapEvent.featureExtractor], some 1)) ∧
    (w.feat_ret = 0 → w.match_ret ≠ 0 →
      run_colmap matcher_type w =
        ([ColmapEvent.featureExtractor,
          ColmapEvent.matcherRun (if matcher_type = "sequential" then "sequential_matcher"
            else "exhaustive_matcher")], some 1)) ∧
    (w.feat_ret = 0 → w.match_ret = 0 → w.map_ret ≠ 0 →
      run_colmap matcher_type w =
        ([ColmapEvent.featureExtractor,
          ColmapEvent.matcherRun (if matcher_type = "sequential" then "sequential_matcher"
            else "exhaustive_matcher"),
          ColmapEvent.mapper], some 1)) ∧
    (w.feat_ret = 0 → w.match_ret = 0 → w.map_ret = 0 →
      run_colmap matcher_type w =
        ([ColmapEvent.featureExtractor,
          ColmapEvent.matcherRun (if matcher_type = "sequential" then "sequential_matcher"
            else "exhaustive_matcher"),
          ColmapEvent.mapper]
          ++ w.model_dirs.map (fun d => ColmapEvent.modelConverter d (w.convert_ret d)),
         none)) := by
  refine ⟨fun h1 => ?_, fun h1 h2 => ?_, fun h1 h2 h3 => ?_, fun h1 h2 h3 => ?_⟩ <;>
    simp [run_colmap, h1, *]

/-- C8 witness: concrete runs exercising the mapper-failure abort and
the all-success completion. -/
theorem run_colmap_step_failures_witness :
    ((0 : Int) = 0 ∧ (0 : Int) = 0 ∧ (7 : Int) ≠ 0 ∧
      run_colmap "exhaustive" (ColmapWorld.mk 0 0 7 [] (fun _ => 0)) =
        ([ColmapEvent.featureExtractor, ColmapEvent.matcherRun "exhaustive_matcher",
          ColmapEvent.mapper], some 1)) ∧
    ((0 : Int) = 0 ∧
      run_colmap "sequential" (ColmapWorld.mk 0 0 0 ["0", "1"] (fun _ => 0)) =
        ([ColmapEvent.featureExtractor, ColmapEvent.matcherRun "sequential_matcher",
          ColmapEvent.mapper]
          ++ ["0", "1"].map (fun d => ColmapEvent.modelConverter d 0), none)) :=
  ⟨⟨rfl, rfl, by decide,
    by simpa using (run_colmap_step_failures "exhaustive"
      (ColmapWorld.mk 0 0 7 [] (fun _ => 0))).2.2.1 rfl rfl (by decide)⟩,
   ⟨rfl,
    by simpa using (run_colmap_step_failures "sequential"
      (ColmapWorld.mk 0 0 0 ["0", "1"] (fun _ => 0))).2.2.2 rfl rfl rfl⟩⟩

/-- A directory: an association of file names to (abstract) file
contents, with the first entry for a name the authoritative one. -/
abbrev Dir := List (String × Nat)

/-- Look up the contents of a file name in a directory. -/
def dirLookup : Dir → String → Option Nat
  | [], _ => none
  | (k, v) :: rest, n => if k = n then some v else dirLookup rest n

/-- Write a file into a directory, overwriting an existing entry with
the same name (the semantics of `shutil.copy` into a directory). -/
def upsert : Dir → String → Nat → Dir
  | [], n, c => [(n, c)]
  | (k, v) :: rest, n, c =>
      if k = n then (k, c) :: rest else (k, v) :: upsert rest n c

/-- Copy every file of `src` into `dst`, in order (the first loop of
`resize_images`, lines 153-155). -/
def copy_into (dst : Dir) (src : Dir) : Dir :=
  src.foldl (fun acc p => upsert acc p.1 p.2) dst

/-- The in-place `magick -resize` pass over a directory (the second loop
of `resize_images`, lines 157-164).  `rz` gives each file's contents
after its resize sub-call; a failed per-file call is the case
`rz n c = c` (the file keeps its prior contents), which the source
tolerates without checking. -/
def magick_pass (rz : String → Nat → Nat) (d : Dir) : Dir :=
  d.map (fun p => (p.1, rz p.1 p.2))

/-- The workspace directory tree as the orchestrator manipulates it. -/
structure Workspace where
  images : Dir
  images_original : Dir
  sparse_models : List String
  database : Option Nat
  ply_files : Dir

/-- Embedding of `resize_images` (lines 140-167) as a workspace
transformer: first every `images/*.jpg` file is copied verbatim into
`images_original`, then each is rewritten in place by its resize call. -/
def resize_images (rz : String → Nat → Nat) (ws : Workspace) : Workspace :=
  { ws with
    images_original := copy_into ws.images_original ws.images,
    images := magick_pass rz ws.images }

/-- The per-file actions of `resize_images`, in the order the source
performs them: one copy per file, then one resize per file. -/
inductive ResizeEvent where
  | copyOriginal (name : String)
  | magickResize (name : String)
  deriving Repr, DecidableEq

/-- The trace of `resize_images`: the copy loop runs to completion
before the resize loop starts. -/
def resize_trace (ws : Workspace) : List ResizeEvent :=
  ws.images.map (fun p => ResizeEvent.copyOriginal p.1)
    ++ ws.images.map (fun p => ResizeEvent.magickResize p.1)

/-- Whether an action of `resize_images` is a copy into
`images_original`. -/
def isCopyEv : ResizeEvent → Bool
  | ResizeEvent.copyOriginal _ => true
  | ResizeEvent.magickResize _ => false

/-- A trace in which every copy action happens before any resize
action: it splits into a pure-copy phase followed by a pure-resize
phase. -/
def copiesBeforeResizes (t : List ResizeEvent) : Prop :=
  ∃ a b, t = a ++ b ∧ (∀ e ∈ a, isCopyEv e = true) ∧ (∀ e ∈ b, isCopyEv e = false)

/-- Workspace effect of `run_colmap` (lines 170-242): it writes
`database.db` and the model subdirectories under `sparse`, touching
neither `images` nor `images_original`. -/
def run_colmap_ws (db : Nat) (models : List String) (ws : Workspace) : Workspace :=
  { ws with database := some db, sparse_models := models }

/-- Workspace effect of `run_brush_training` (lines 280-336): Brush
exports `.ply` artifacts to the workspace root (`--export-path`). -/
def run_brush_training_ws (exports : Dir) (ws : Workspace) : Workspace :=
  { ws with ply_files := copy_into ws.ply_files exports }

/-- Workspace effect of `run_remote_training` (lines 441-445): the
result `rsync` writes retrieved `.ply` artifacts into the workspace. -/
def run_remote_training_ws (retrieved : Dir) (ws : Workspace) : Workspace :=
  { ws with ply_files := copy_into ws.ply_files retrieved }

theorem dirLookup_upsert_self (d : Dir) (k : String) (c : Nat) :
    dirLookup (upsert d k c) k = some c := by
  induction d with
  | nil => simp [upsert, dirLookup]
  | cons p rest ih =>
      by_cases h : p.1 = k <;> simp [upsert, dirLookup, h, ih]

theorem dirLookup_upsert_ne (d : Dir) (k n : String) (c : Nat) (h : n ≠ k) :
    dirLookup (upsert d k c) n = dirLookup d n := by
  have hkn : k ≠ n := Ne.symm h
  induction d with
  | nil => simp [upsert, dirLookup, hkn]
  | cons p rest ih =>
      by_cases hk : p.1 = k
      · subst hk
        simp [upsert, dirLookup, hkn]
      · by_cases hn : p.1 = n <;> simp [upsert, dirLookup, hk, hn, h, hkn, ih]

theorem dirLookup_copy_into_not_mem (src : Dir) (dst : Dir) (n : String)
    (h : n ∉ src.map Prod.fst) :
    dirLookup (copy_into dst src) n = dirLookup dst n := by
  induction src generalizing dst with
  | nil => rfl
  | cons p rest ih =>
      simp only [List.map_cons, List.mem_cons, not_or] at h
      have hstep : copy_into dst (p :: rest) = copy_into (upsert dst p.1 p.2) rest := rfl
      rw [hstep, ih _ h.2]
      exact dirLookup_upsert_ne dst p.1 n p.2 h.1

theorem dirLookup_copy_into (src : Dir) (dst : Dir) (n : String) (c : Nat)
    (hnd : (src.map Prod.fst).Nodup) (h : dirLookup src n = some c) :
    dirLookup (copy_into dst src) n = some c := by
  induction src generalizing dst with
  | nil => simp [dirLookup] at h
  | cons p rest ih =>
      simp only [List.map_cons, List.nodup_cons] at hnd
      have hstep : copy_into dst (p :: rest) = copy_into (upsert dst p.1 p.2) rest := rfl
      by_cases hk : p.1 = n
      · subst hk
        have hc : p.2 = c := by simpa [dirLookup] using h
        rw [hstep, dirLookup_copy_into_not_mem rest (upsert dst p.1 p.2) p.1 hnd.1,
          dirLookup_upsert_self, hc]
      · have h2 : dirLookup rest n = some c := by simpa [dirLookup, hk] using h
        rw [hstep]
        exact ih (upsert dst p.1 p.2) hnd.2 h2

theorem dirLookup_magick_pass (rz : String → Nat → Nat) (d : Dir) (n : String) (c : Nat)
    (h : dirLookup d n = some c) :
    dirLookup (magick_pass rz d) n = some (rz n c) := by
  induction d with
  | nil => simp [dirLookup] at h
  | cons p rest ih =>
      by_cases hk : p.1 = n
      · subst hk
        have hc : p.2 = c := by simpa [dirLookup] using h
        simp [magick_pass, dirLookup, hc]
      · have h2 : dirLookup rest n = some c := by simpa [dirLookup, hk] using h
        simpa [magick_pass, dirLookup, hk] using ih h2

/-- C7: for every run of `resize_images` on a workspace whose `images`
directory has distinct file names, every frame present in `images` at
the start is present bit-for-bit in `images_original` afterwards and
`images` holds its (possibly re-encoded) version; in the trace, every
copy into `images_original` happens before any resize; and no later
stage (`run_colmap`, local training, remote training) mutates
`images_original`. -/
theorem resize_images_preserves_originals (rz : String → Nat → Nat) (ws : Workspace)
    (hnd : (ws.images.map Prod.fst).Nodup) :
    (∀ n c, dirLookup ws.images n = some c →
      dirLookup (resize_images rz ws).images_original n = some c) ∧
    (∀ n c, dirLookup ws.images n = some c →
      dirLookup (resize_images rz ws).images n = some (rz n c)) ∧
    copiesBeforeResizes (resize_trace ws) ∧
    (∀ db ms ws2, (run_colmap_ws db ms ws2).images_original = ws2.images_original) ∧
    (∀ ex ws2, (run_brush_training_ws ex ws2).images_original = ws2.images_original) ∧
    (∀ rt ws2, (run_remote_training_ws rt ws2).images_original = ws2.images_original) := by
  refine ⟨fun n c h => ?_, fun n c h => ?_, ?_, fun _ _ _ => rfl, fun _ _ => rfl,
    fun _ _ => rfl⟩
  · exact dirLookup_copy_into ws.images ws.images_original n c hnd h
  · exact dirLookup_magick_pass rz ws.images n c h
  · refine ⟨_, _, rfl, ?_, ?_⟩
    · intro e he
      obtain ⟨p, hp, rfl⟩ := List.mem_map.mp he
      rfl
    · intro e he
      obtain ⟨p, hp, rfl⟩ := List.mem_map.mp he
      rfl

/-- The concrete two-frame workspace used in the C7 witness. -/
def wsExample : Workspace :=
  Workspace.mk [("frame_0001.jpg", 11), ("frame_0002.jpg", 22)] [] [] none []

/-- C7 witness: on the concrete two-frame workspace, the second frame's
original contents are found verbatim in `images_original` after
`resize_images`. -/
theorem resize_images_preserves_originals_witness :
    (wsExample.images.map Prod.fst).Nodup ∧
    dirLookup (resize_images (fun _ c => c + 1) wsExample).images_original
      "frame_0002.jpg" = some 22 :=
  ⟨by decide,
   (resize_images_preserves_originals (fun _ c => c + 1) wsExample
      (by decide)).1 "frame_0002.jpg" 22 (by decide)⟩

/-- The environment of one invocation of `main` (lines 488-684): the
parsed CLI arguments together with the external-world facts `main`
consults (filesystem existence checks, saved configuration, subprocess
exit codes, wall-clock time). -/
structure Env where
  output : String
  skip_extract : Bool
  skip_colmap : Bool
  skip_training : Bool
  remote : Bool
  remote_host_arg : Option String
  remote_user_arg : Option String
  remote_path_arg : String
  save_config_arg : Bool
  brush_path_arg : Option String
  steps_arg : Option Int
  sh_degree : Nat
  export_every : Nat
  resolution : Nat
  no_viewer : Bool
  matcher : String
  saved_config : Option RemoteConfig
  brush_found : Option String
  brush_path_exists : Bool
  video_exists : Bool
  images_dir_exists : Bool
  existing_jpg_count : Nat
  deps_ok : Bool
  ffmpeg_ok : Bool
  extracted_count : Nat
  colmap : ColmapWorld
  remote_world : RemoteWorld
  now : Nat

/-- External actions performed by `main`, in order. -/
inductive Event where
  | saveConfig (host user : Option String) (path : String)
  | runExtract
  | runResize (resolution : Nat)
  | colmapEv (ev : ColmapEvent)
  | remoteEv (ev : RemoteEvent)
  | runTrainLocal (steps : Int) (refine sh expEvery maxres : Nat) (viewer : Bool)
  | runSummary
  deriving Repr, DecidableEq

/-- The string actually passed where the source passes a (truthy)
optional string to a callee expecting a string. -/
def optStr (o : Option String) : String := o.getD ""

/-- The merged remote connection settings `main` works with
(lines 566-577). -/
def mergedProfile (e : Env) : Option String × Option String × String :=
  effectiveRemoteProfile e.remote_host_arg e.remote_user_arg e.remote_path_arg
    e.saved_config

/-- The configuration-save action of lines 586-587, performed only for
a remote run with the save flag. -/
def t0Events (e : Env) (rh ru : Option String) (rp : String) : List Event :=
  if e.remote && e.save_config_arg then [Event.saveConfig rh ru rp] else []

/-- Steps 4 and 5 of `main` (lines 650-684): smart defaults, the
training dispatch (remote or local, honoring `--skip-training`), and
the summary.  The training invocations' return codes are not checked
by `main` (lines 663-681), so this phase always completes. -/
def trainPhase (e : Env) (rh ru : Option String) (rp : String)
    (t : List Event) (frame_count : Nat) : List Event × Option Nat :=
  let total_steps := effectiveTotalSteps e.steps_arg frame_count
  let refine_every := (get_smart_defaults frame_count).refine_every
  let t2 :=
    if e.skip_training then t
    else if e.remote then
      t ++ (run_remote_training e.output (optStr rh) (optStr ru) rp
        total_steps e.now e.remote_world).1.map Event.remoteEv
    else
      t ++ [Event.runTrainLocal total_steps refine_every e.sh_degree e.export_every
        e.resolution (!e.no_viewer)]
  (t2 ++ [Event.runSummary], none)

/-- Step 3 of `main` (lines 644-648): the COLMAP stage, skippable; a
`sys.exit` inside `run_colmap` terminates the pipeline. -/
def colmapPhase (e : Env) (rh ru : Option String) (rp : String)
    (t : List Event) (frame_count : Nat) : List Event × Option Nat :=
  if e.skip_colmap then trainPhase e rh ru rp t frame_count
  else
    let r := run_colmap e.matcher e.colmap
    let t2 := t ++ r.1.map Event.colmapEv
    match r.2 with
    | some code => (t2, some code)
    | none => trainPhase e rh ru rp t2 frame_count

/-- Step 2 of `main` (lines 639-642): images are resized exactly when
frames were just extracted. -/
def resizePhase (e : Env) (rh ru : Option String) (rp : String)
    (t : List Event) (frame_count : Nat) : List Event × Option Nat :=
  if e.skip_extract then colmapPhase e rh ru rp t frame_count
  else colmapPhase e rh ru rp (t ++ [Event.runResize e.resolution]) frame_count

/-- Embedding of `main` (lines 488-684) after argument parsing: the
remote-configuration merge and completeness check, the Brush lookup for
local training, the input-video check (only without `--skip-extract`),
the dependency check, frame extraction or reuse of the existing
`images` directory, and the resize/COLMAP/training/summary phases.
Returns the trace of external actions and `some code` when the process
exits early via `sys.exit(code)`, `none` on normal completion
(exit status 0). -/
def mainTrace (e : Env) : List Event × Option Nat :=
  let m := mergedProfile e
  if e.remote && (!(truthy m.1) || !(truthy m.2.1)) then ([], some 1)
  else
    let t0 := t0Events e m.1 m.2.1 m.2.2
    if !e.remote && !e.skip_training && !(truthy (pyOr e.brush_path_arg e.brush_found))
      then (t0, some 1)
    else if !e.skip_extract && !e.video_exists then (t0, some 1)
    else if !e.deps_ok then (t0, some 1)
    else if !e.skip_training && !e.remote && !e.brush_path_exists then (t0, some 1)
    else if e.skip_extract then
      if !e.images_dir_exists then (t0, some 1)
      else resizePhase e m.1 m.2.1 m.2.2 t0 e.existing_jpg_count
    else
      let t1 := t0 ++ [Event.runExtract]
      if !e.ffmpeg_ok then (t1, some 1)
      else resizePhase e m.1 m.2.1 m.2.2 t1 e.extracted_count

/-- C2: evaluating the configuration merge of `main` at the spec's
example: with saved profile `{host: "A", user: "B", path: "C"}` and the
CLI supplying only the host `"X"` (so the path argument holds its
argparse default `"/c/splat/jobs"`), the effective profile is
`(some "X", some "B", "/c/splat/jobs")` — the stored path `"C"` is not
used, because the non-empty default makes the `or`-fallback to the
saved path unreachable. -/
theorem remote_path_merge_uses_default :
    effectiveRemoteProfile (some "X") none "/c/splat/jobs"
        (some (RemoteConfig.mk (some "A") (some "B") (some "C"))) =
      (some "X", some "B", "/c/splat/jobs") ∧
    ("/c/splat/jobs" : String) ≠ "C" := by
  constructor
  · rfl
  · decide

/-- With `--skip-extract`, `main` never consults the input video: its
behaviour is given by this video-free expression (the check at
lines 602-605 is guarded by `not args.skip_extract`). -/
theorem mainTrace_skip_extract (e : Env) (h : e.skip_extract = true) :
    mainTrace e =
      (if e.remote && (!(truthy (mergedProfile e).1) || !(truthy (mergedProfile e).2.1))
        then ([], some 1)
       else if !e.remote && !e.skip_training &&
          !(truthy (pyOr e.brush_path_arg e.brush_found)) then
         (t0Events e (mergedProfile e).1 (mergedProfile e).2.1 (mergedProfile e).2.2, some 1)
       else if !e.deps_ok then
         (t0Events e (mergedProfile e).1 (mergedProfile e).2.1 (mergedProfile e).2.2, some 1)
       else if !e.skip_training && !e.remote && !e.brush_path_exists then
         (t0Events e (mergedProfile e).1 (mergedProfile e).2.1 (mergedProfile e).2.2, some 1)
       else if !e.images_dir_exists then
         (t0Events e (mergedProfile e).1 (mergedProfile e).2.1 (mergedProfile e).2.2, some 1)
       else
         resizePhase e (mergedProfile e).1 (mergedProfile e).2.1 (mergedProfile e).2.2
           (t0Events e (mergedProfile e).1 (mergedProfile e).2.1 (mergedProfile e).2.2)
           e.existing_jpg_count) := by
  simp only [mainTrace, h, Bool.not_true, Bool.false_and, Bool.if_false_left]
  split_ifs <;> simp_all

/-- Whether an action of `main` is the configuration save (the only
action that can precede the precondition checks). -/
def isSaveConfigEv : Event → Bool
  | Event.saveConfig _ _ _ => true
  | _ => false

theorem t0Events_all_save (e : Env) (rh ru : Option String) (rp : String) :
    ∀ ev ∈ t0Events e rh ru rp, isSaveConfigEv ev = true := by
  intro ev hev
  unfold t0Events at hev
  by_cases h : (e.remote && e.save_config_arg) = true
  · rw [if_pos h] at hev
    simp only [List.mem_singleton] at hev
    subst hev
    rfl
  · rw [if_neg h] at hev
    simp at hev

/-- A concrete invocation: `--skip-extract --skip-training` with an
existing but empty `images` directory (zero `.jpg` files), all
dependencies present, sequential matcher, one COLMAP model produced. -/
def envEmptyImages : Env :=
  { output := "/out", skip_extract := true, skip_colmap := false, skip_training := true,
    remote := false, remote_host_arg := none, remote_user_arg := none,
    remote_path_arg := "/c/splat/jobs", save_config_arg := false, brush_path_arg := none,
    steps_arg := none, sh_degree := 3, export_every := 5000, resolution := 1600,
    no_viewer := false, matcher := "sequential",
    saved_config := none, brush_found := none, brush_path_exists := false,
    video_exists := false, images_dir_exists := true, existing_jpg_count := 0,
    deps_ok := true, ffmpeg_ok := true, extracted_count := 0,
    colmap := ColmapWorld.mk 0 0 0 ["0"] (fun _ => 0),
    remote_world := RemoteWorld.mk 0 0 0 0, now := 0 }

/-- The invocation of `envEmptyImages` with a missing `images`
directory. -/
def envNoImagesDir : Env := { envEmptyImages with images_dir_exists := false }

/-- The invocation of `envEmptyImages` additionally skipping COLMAP. -/
def envSkipAll : Env := { envEmptyImages with skip_colmap := true }

/-- A local-training invocation of `envEmptyImages` with `--steps 0`. -/
def envSteps0 : Env :=
  { envEmptyImages with
    steps_arg := some 0, skip_training := false,
    brush_found := some "/Applications/brush_app", brush_path_exists := true }

/-- C3 counterexample: skipping Extract with an `images` directory that
exists but is empty does not fail — `main` proceeds with frame count 0,
invokes the whole Reconstruct stage, and completes with exit status 0
(the check at lines 632-634 only tests directory existence). -/
theorem skip_extract_empty_images_proceeds :
    envEmptyImages.skip_extract = true ∧
    envEmptyImages.images_dir_exists = true ∧
    envEmptyImages.existing_jpg_count = 0 ∧
    mainTrace envEmptyImages =
      ([Event.colmapEv ColmapEvent.featureExtractor,
        Event.colmapEv (ColmapEvent.matcherRun "sequential_matcher"),
        Event.colmapEv ColmapEvent.mapper,
        Event.colmapEv (ColmapEvent.modelConverter "0" 0),
        Event.runSummary], none) := by
  refine ⟨rfl, rfl, rfl, ?_⟩
  rfl

/-- C3 (amended): skipping Extract fails with a precondition error
(exit 1, before any resize, reconstruction, training or summary action)
exactly when the `images` directory does not exist; an existing
directory is accepted whatever its frame count — in particular an empty
one — and the pipeline proceeds. -/
theorem skip_extract_missing_images_precondition :
    (∀ e : Env, e.skip_extract = true → e.images_dir_exists = false →
      (mainTrace e).2 = some 1 ∧ ∀ ev ∈ (mainTrace e).1, isSaveConfigEv ev = true) ∧
    (∀ e : Env, e.skip_extract = true → e.images_dir_exists = true →
      e.remote = false → e.skip_training = true → e.deps_ok = true →
      e.skip_colmap = true →
      mainTrace e = ([Event.runSummary], none)) := by
  constructor
  · intro e h1 h2
    rw [mainTrace_skip_extract e h1]
    simp only [h2, Bool.not_false, if_true]
    split_ifs <;> refine ⟨rfl, ?_⟩
    · intro ev hev
      exact absurd hev (List.not_mem_nil ev)
    all_goals exact t0Events_all_save e _ _ _
  · intro e h1 h2 h3 h4 h5 h6
    rw [mainTrace_skip_extract e h1]
    simp [h2, h3, h4, h5, h6, resizePhase, colmapPhase, trainPhase, t0Events, h1]

/-- C3 witness: concrete invocations exercising both directions of the
amended claim. -/
theorem skip_extract_missing_images_precondition_witness :
    (envNoImagesDir.skip_extract = true ∧ envNoImagesDir.images_dir_exists = false ∧
      (mainTrace envNoImagesDir).2 = some 1) ∧
    (envSkipAll.skip_extract = true ∧ envSkipAll.images_dir_exists = true ∧
      mainTrace envSkipAll = ([Event.runSummary], none)) :=
  ⟨⟨rfl, rfl,
    (skip_extract_missing_images_precondition.1 envNoImagesDir rfl rfl).1⟩,
   ⟨rfl, rfl,
    skip_extract_missing_images_precondition.2 envSkipAll rfl rfl rfl rfl rfl rfl⟩⟩

/-- C4 counterexample: an explicitly supplied `--steps 0` is falsy for
Python `or`, so the training stage is invoked with the advisor's
derived value (20000 for 10 frames), not with the supplied 0. -/
theorem zero_steps_not_overriding :
    envSteps0.steps_arg = some 0 ∧
    trainPhase envSteps0 none none "/c/splat/jobs" [] 10 =
      ([Event.runTrainLocal 20000 10 3 5000 1600 true, Event.runSummary], none) ∧
    (20000 : Int) ≠ 0 := by
  refine ⟨rfl, ?_, by decide⟩
  rfl

/-- C4 (amended): every explicitly supplied non-zero step count is the
effective step count handed to the training stage, whatever the frame
count; a supplied step count of 0 is discarded in favour of the derived
value (Python `or` treats 0 as absent). -/
theorem user_steps_override (s : Int) (hs : s ≠ 0) (fc : Nat) :
    effectiveTotalSteps (some s) fc = s ∧
    ∀ (e : Env) (rh ru : Option String) (rp : String) (t : List Event),
      e.steps_arg = some s → e.skip_training = false → e.remote = false →
      trainPhase e rh ru rp t fc =
        (t ++ [Event.runTrainLocal s ((get_smart_defaults fc).refine_every) e.sh_degree
          e.export_every e.resolution (!e.no_viewer), Event.runSummary], none) := by
  constructor
  · simp [effectiveTotalSteps, hs]
  · intro e rh ru rp t h1 h2 h3
    simp [trainPhase, effectiveTotalSteps, h1, h2, h3, hs]

/-- C4 witness: `--steps 60000` with 40 frames trains with 60000 steps. -/
theorem user_steps_override_witness :
    (60000 : Int) ≠ 0 ∧ effectiveTotalSteps (some 60000) 40 = 60000 :=
  ⟨by decide, (user_steps_override 60000 (by decide) 40).1⟩

/-- The remote training command (if any) carried by an action of
`main`. -/
def trainCmdOf : Event → Option String
  | Event.remoteEv (RemoteEvent.sshTrain _ _ c) => some c
  | _ => none

/-- The remote training commands `main` issues over its whole run. -/
def remoteCmds (e : Env) : List String :=
  (mainTrace e).1.filterMap trainCmdOf

theorem trainCmdOf_colmapEv (ev : ColmapEvent) :
    trainCmdOf (Event.colmapEv ev) = none := rfl

theorem filterMap_trainCmdOf_colmap (l : List ColmapEvent) :
    (l.map Event.colmapEv).filterMap trainCmdOf = [] := by
  induction l with
  | nil => rfl
  | cons x xs ih => simp [trainCmdOf_colmapEv, ih]

theorem t0Events_cmds (e : Env) (rh ru : Option String) (rp : String) :
    (t0Events e rh ru rp).filterMap trainCmdOf = [] := by
  unfold t0Events
  split_ifs <;> simp [trainCmdOf]

/-- The remote training commands contributed by the training phase. -/
def trainTail (e : Env) (rh ru : Option String) (rp : String) (fc : Nat) : List String :=
  if e.skip_training then []
  else if e.remote then
    ((run_remote_training e.output (optStr rh) (optStr ru) rp
        (effectiveTotalSteps e.steps_arg fc) e.now e.remote_world).1.map
      Event.remoteEv).filterMap trainCmdOf
  else []

theorem trainPhase_cmds (e : Env) (rh ru : Option String) (rp : String)
    (t : List Event) (fc : Nat) :
    (trainPhase e rh ru rp t fc).1.filterMap trainCmdOf =
      t.filterMap trainCmdOf ++ trainTail e rh ru rp fc := by
  simp only [trainPhase, trainTail]
  split_ifs <;> simp [trainCmdOf, List.filterMap_append]

/-- The remote training commands contributed by the COLMAP and training
phases. -/
def colmapTail (e : Env) (rh ru : Option String) (rp : String) (fc : Nat) : List String :=
  if e.skip_colmap then trainTail e rh ru rp fc
  else
    match (run_colmap e.matcher e.colmap).2 with
    | some _ => []
    | none => trainTail e rh ru rp fc

theorem colmapPhase_cmds (e : Env) (rh ru : Option String) (rp : String)
    (t : List Event) (fc : Nat) :
    (colmapPhase e rh ru rp t fc).1.filterMap trainCmdOf =
      t.filterMap trainCmdOf ++ colmapTail e rh ru rp fc := by
  simp only [colmapPhase, colmapTail]
  split_ifs with h
  · exact trainPhase_cmds e rh ru rp t fc
  · cases hr : (run_colmap e.matcher e.colmap).2 with
    | some code =>
        simp [hr, List.filterMap_append, filterMap_trainCmdOf_colmap, trainCmdOf_colmapEv]
    | none =>
        simp [hr, trainPhase_cmds, List.filterMap_append, filterMap_trainCmdOf_colmap,
          trainCmdOf_colmapEv]

theorem resizePhase_cmds (e : Env) (rh ru : Option String) (rp : String)
    (t : List Event) (fc : Nat) :
    (resizePhase e rh ru rp t fc).1.filterMap trainCmdOf =
      t.filterMap trainCmdOf ++ colmapTail e rh ru rp fc := by
  simp only [resizePhase]
  split_ifs
  · exact colmapPhase_cmds e rh ru rp t fc
  · rw [colmapPhase_cmds]
    simp [trainCmdOf, List.filterMap_append]

/-- The remote training commands of a whole run of `main`, as a
function of the fields that can influence them. -/
theorem mainTrace_cmds (e : Env) :
    remoteCmds e =
      (if e.remote && (!(truthy (mergedProfile e).1) || !(truthy (mergedProfile e).2.1))
        then []
       else if !e.remote && !e.skip_training &&
          !(truthy (pyOr e.brush_path_arg e.brush_found)) then []
       else if !e.skip_extract && !e.video_exists then []
       else if !e.deps_ok then []
       else if !e.skip_training && !e.remote && !e.brush_path_exists then []
       else if e.skip_extract then
         if !e.images_dir_exists then []
         else colmapTail e (mergedProfile e).1 (mergedProfile e).2.1 (mergedProfile e).2.2
           e.existing_jpg_count
       else if !e.ffmpeg_ok then []
       else colmapTail e (mergedProfile e).1 (mergedProfile e).2.1 (mergedProfile e).2.2
         e.extracted_count) := by
  simp only [remoteCmds, mainTrace]
  split_ifs <;>
    simp [resizePhase_cmds, t0Events_cmds, trainCmdOf, List.filterMap_append]

/-- C9: when remote execution is selected, the user-supplied
spherical-harmonics degree, export cadence, target resolution and
viewer toggle have no influence on the remote commands: two invocations
of `main` differing only in those four settings issue exactly the same
remote training commands (the command forwards only the job path and
the step count). -/
theorem remote_cmd_independent_of_quality_settings (e : Env) (a b c : Nat) (d : Bool) :
    remoteCmds { e with
      sh_degree := a, export_every := b, resolution := c, no_viewer := d } =
      remoteCmds e := by
  rw [mainTrace_cmds, mainTrace_cmds]
  rfl

/-- C10: when the Extract stage is skipped, the input video is never
consulted: the whole behaviour of `main` is unchanged by the existence
or non-existence of the video file, and with an existing `images`
directory and otherwise healthy world a nonexistent video path does not
cause a precondition error — the pipeline runs COLMAP, training and the
summary and completes. -/
theorem skip_extract_ignores_video :
    (∀ (e : Env) (bb : Bool), e.skip_extract = true →
      mainTrace { e with video_exists := bb } = mainTrace e) ∧
    (∀ e : Env, e.skip_extract = true → e.images_dir_exists = true →
      e.remote = false → e.skip_training = false → e.deps_ok = true →
      truthy (pyOr e.brush_path_arg e.brush_found) = true →
      e.brush_path_exists = true → e.skip_colmap = false →
      e.colmap.feat_ret = 0 → e.colmap.match_ret = 0 → e.colmap.map_ret = 0 →
      mainTrace e =
        ((run_colmap e.matcher e.colmap).1.map Event.colmapEv ++
          [Event.runTrainLocal (effectiveTotalSteps e.steps_arg e.existing_jpg_count)
            ((get_smart_defaults e.existing_jpg_count).refine_every) e.sh_degree
            e.export_every e.resolution (!e.no_viewer), Event.runSummary], none)) := by
  constructor
  · intro e bb h
    have h2 : ({ e with video_exists := bb } : Env).skip_extract = true := h
    rw [mainTrace_skip_extract _ h2, mainTrace_skip_extract e h]
    rfl
  · intro e h1 h2 h3 h4 h5 h6 h7 h8 h9 h10 h11
    rw [mainTrace_skip_extract e h1]
    have hr : (run_colmap e.matcher e.colmap).2 = none := by
      simp [run_colmap, h9, h10, h11]
    simp [h1, h2, h3, h4, h5, h6, h7, h8, resizePhase, colmapPhase, trainPhase,
      t0Events, hr]

/-- C10 witness: with `--skip-extract`, toggling the video's existence
leaves the run unchanged, and a concrete local-training invocation with
a nonexistent video completes through every remaining stage. -/
theorem skip_extract_ignores_video_witness :
    (envSkipAll.skip_extract = true ∧
      mainTrace { envSkipAll with video_exists := true } = mainTrace envSkipAll) ∧
    (envSteps0.skip_extract = true ∧ envSteps0.video_exists = false ∧
      mainTrace envSteps0 =
        ((run_colmap envSteps0.matcher envSteps0.colmap).1.map Event.colmapEv ++
          [Event.runTrainLocal
            (effectiveTotalSteps envSteps0.steps_arg envSteps0.existing_jpg_count)
            ((get_smart_defaults envSteps0.existing_jpg_count).refine_every)
            envSteps0.sh_degree envSteps0.export_every envSteps0.resolution
            (!envSteps0.no_viewer), Event.runSummary], none)) :=
  ⟨⟨rfl, skip_extract_ignores_video.1 envSkipAll true rfl⟩,
   ⟨rfl, rfl,
    skip_extract_ignores_video.2 envSteps0 rfl rfl rfl rfl rfl (by decide) rfl rfl
      rfl rfl rfl⟩⟩
